import Mathlib

/-!
# Verification of the ros_gym backend abstraction and command-confirmation core

Shallow embedding of the two backend files of the repository:

* `src/robot_envs/mavros_uav_robot_env.py` — the mavros/px4 service backend:
  the `_set_service_request` confirmation protocol, `_set_mode_request`, and
  the `_reset_pose_estimator` barrier.
* `src/ros_gym/gym_airsim/airsim_handler.py` — the direct airsim backend:
  `reset`, `pause`, `unpause`, `client_arm`, `client_takeoff`, `client_land`,
  `client_cmd_vel`, `client_state`.

Modelling conventions:

* Time values (`rospy.Time` differences, float seconds) are rationals.
* Python exceptions are explicit: a callable that can raise is modelled as
  returning a sum (`Except`, or an outcome inductive); an exception that the
  source does not catch propagates as an explicit `exn`-style result.
* The environment around a call (the concurrently-updated telemetry fields,
  the shutdown flag, the clock) is a function of the loop iteration index:
  iteration `j` of a wait loop observes the readiness condition, shutdown
  flag and elapsed time at index `j`. Each loop iteration observes one
  coherent sample (iteration-level atomicity of the cached message).
* Unbounded `while` loops are run on fuel: `none` means the loop was still
  running when the fuel ran out, so a loop that returns `none` on every fuel
  never terminates.
* Python strings that are only ever compared for equality (flight-mode
  names) are modelled as naturals; floats whose exact values are passed
  through unchanged are modelled as rationals.
-/

/-! ## The `_set_service_request` confirmation protocol (mavros_uav_robot_env.py lines 109-129) -/

/-- Outcome of one evaluation of the readiness condition `cond()`.
`raises` models a Python exception escaping the predicate (e.g. an
`AttributeError` when the cached telemetry field it reads was never set). -/
inductive CondOutcome
  | raises
  | value (b : Bool)
  deriving DecidableEq

/-- Outcome of the service invocation `srv(*req)` at line 114:
`raises` models `rospy.ServiceException`; `response accepted` models a
normal return whose truthiness is `accepted`. -/
inductive SrvOutcome
  | raises
  | response (accepted : Bool)
  deriving DecidableEq

/-- The environment a single `_set_service_request` call runs in.
`cond k` is the outcome of the k-th evaluation of the readiness predicate
(evaluation 0 is the initial check at line 112, evaluation `j+1` happens at
loop iteration `j`); `shutdown j` is `rospy.is_shutdown()` at loop iteration
`j`; `elapsed j` is `(rospy.Time.now() - start_time).to_sec()` at loop
iteration `j`; `srv` is the outcome of the single service invocation. -/
structure ServiceEnv where
  cond : ℕ → CondOutcome
  shutdown : ℕ → Bool
  elapsed : ℕ → ℚ
  srv : SrvOutcome

/-- Result of a `_set_service_request` call: a normal Python return value
(`ret b` for `return True` / `return False`) or an uncaught exception
propagating out of the method (`exn`). -/
inductive SvcResult
  | ret (b : Bool)
  | exn
  deriving DecidableEq

/-- Observable trace of a `_set_service_request` call: the result (`none`
when the wait loop was still running at fuel exhaustion), the number of
evaluations of the readiness predicate performed, and whether the service
was invoked. -/
structure SvcTrace where
  result : Option SvcResult
  condEvals : ℕ
  srvInvoked : Bool
  deriving DecidableEq

/-- The confirmation wait loop
`while not cond() and not rospy.is_shutdown(): if elapsed >= timeout: return False`
(lines 116-119), followed by `return True` (line 120) when the `while`
condition fails. Returns the loop result together with the number of
condition evaluations performed. Iteration `j` evaluates `cond (j+1)`,
then `shutdown j`, then the timeout check at `elapsed j`. -/
def serviceLoop (env : ServiceEnv) (timeout : ℚ) : ℕ → ℕ → Option SvcResult × ℕ
  | 0, _ => (none, 0)
  | fuel+1, j =>
    match env.cond (j+1) with
    | CondOutcome.raises => (some SvcResult.exn, 1)
    | CondOutcome.value true => (some (SvcResult.ret true), 1)
    | CondOutcome.value false =>
      if env.shutdown j then (some (SvcResult.ret true), 1)
      else if timeout ≤ env.elapsed j then (some (SvcResult.ret false), 1)
      else
        let r := serviceLoop env timeout fuel (j+1)
        (r.1, r.2 + 1)

/-- `_set_service_request(name, cond, srv, req, wait_time, timeout)`
(lines 109-129). The initial `cond()` at line 112 is outside the
`try`, and the `except` clause catches only `rospy.ServiceException`, so a
raising predicate propagates (`exn`). A raising or falsy service invocation
returns `False` without entering the loop. `wait_time` is accepted but,
as in the source, never read. -/
def set_service_request (env : ServiceEnv) (wait_time timeout : ℚ) (fuel : ℕ) : SvcTrace :=
  match env.cond 0 with
  | CondOutcome.raises => ⟨some SvcResult.exn, 1, false⟩
  | CondOutcome.value true => ⟨some (SvcResult.ret true), 1, false⟩
  | CondOutcome.value false =>
    match env.srv with
    | SrvOutcome.raises => ⟨some (SvcResult.ret false), 1, true⟩
    | SrvOutcome.response false => ⟨some (SvcResult.ret false), 1, true⟩
    | SrvOutcome.response true =>
      let r := serviceLoop env timeout fuel 0
      ⟨r.1, r.2 + 1, true⟩

/-! ## `_set_mode_request` and its readiness predicate (lines 132-141) -/

/-- The cached `/mavros/state` message fields the set-mode predicate reads.
Flight-mode strings are modelled as naturals (they are only compared for
equality). -/
structure MavState where
  mode : ℕ
  armed : Bool
  deriving DecidableEq

/-- One evaluation of the `_set_mode_request` readiness predicate
`lambda: self._state.mode == mode` (line 136) against the cached state.
When `self._state` was never populated the attribute access raises
(`AttributeError` in Python), modelled by `CondOutcome.raises`. -/
def modeCond (cached : Option MavState) (mode : ℕ) : CondOutcome :=
  match cached with
  | none => CondOutcome.raises
  | some s => CondOutcome.value (s.mode == mode)

/-- The environment of a `_set_mode_request` call whose cached state stays
fixed for the duration of the call. -/
def set_mode_env (cached : Option MavState) (mode : ℕ)
    (shutdown : ℕ → Bool) (elapsed : ℕ → ℚ) (srv : SrvOutcome) : ServiceEnv :=
  ⟨fun _ => modeCond cached mode, shutdown, elapsed, srv⟩

/-- `_set_mode_request(mode, wait_time, timeout)` (lines 132-141) with a
cache that stays fixed during the call: delegates to `_set_service_request`
with the mode-equality predicate. -/
def set_mode_request (cached : Option MavState) (mode : ℕ)
    (shutdown : ℕ → Bool) (elapsed : ℕ → ℚ) (srv : SrvOutcome)
    (wait_time timeout : ℚ) (fuel : ℕ) : SvcTrace :=
  set_service_request (set_mode_env cached mode shutdown elapsed srv) wait_time timeout fuel

/-! ## The `_reset_pose_estimator` wait loop (lines 176-193) -/

/-- The fields of the cached `/mavros/estimator_status` message read by the
barrier: the header timestamp and the two horizontal-position validity
flags. -/
structure EstimatorStatus where
  stamp : ℕ
  pred_hor_position_rel : Bool
  pred_hor_position_abs : Bool
  deriving DecidableEq

/-- One iteration of the wait-loop body (lines 183-190): `continue` when the
observed stamp equals the pre-reset `time_stamp`; otherwise `break` exactly
when both validity flags are true, else fall through to the next
iteration. So the iteration exits the loop iff the stamp differs and both
flags hold. -/
def estGoodSample (time_stamp : ℕ) (s : EstimatorStatus) : Bool :=
  if s.stamp == time_stamp then false
  else s.pred_hor_position_rel && s.pred_hor_position_abs

/-- The `while True` wait loop of `_reset_pose_estimator` (lines 183-190),
run on fuel. `est n` is the cached estimator-status sample observed at
iteration `n`. `some m` means the loop broke at iteration `m`; `none` means
it was still spinning when the fuel ran out. The loop has no timeout and no
shutdown check: its only exit is a good sample. -/
def reset_pose_estimator_wait (time_stamp : ℕ) (est : ℕ → EstimatorStatus) :
    ℕ → ℕ → Option ℕ
  | 0, _ => none
  | fuel+1, n =>
    if estGoodSample time_stamp (est n) then some n
    else reset_pose_estimator_wait time_stamp est fuel (n+1)

/-! ## The direct airsim backend (airsim_handler.py) -/

/-- The single kind of transport error a vendor-client call can raise. -/
inductive RpcError
  | rpc
  deriving DecidableEq

/-- A multirotor-state snapshot, abstract (only its identity matters). -/
abbrev Snapshot := ℕ

/-- The vendor `airsim.MultirotorClient` as seen through the calls the
handler makes: the simulated world (current snapshot, the snapshot a world
reset produces, api-control / armed / paused flags), the values its calls
return, and per-call failure flags saying whether that call raises. -/
structure AirsimClient where
  world : Snapshot
  reset_world : Snapshot
  api_control : Bool
  armed : Bool
  paused : Bool
  arm_result : Bool
  move_result : Bool
  fail_reset : Bool
  fail_api : Bool
  fail_arm : Bool
  fail_move : Bool
  fail_land : Bool
  fail_pause : Bool
  fail_getstate : Bool
  deriving DecidableEq

/-- The handler's own fields: `_new_state` (staleness flag) and
`_multirotor_state` (cached snapshot, `None` before the first fetch). -/
structure HandlerState where
  new_state : Bool
  multirotor_state : Option Snapshot
  deriving DecidableEq

/-- `airsim.YawMode` as built by `client_cmd_vel`. -/
structure YawMode where
  is_rate : Bool
  yaw_or_rate : ℚ
  deriving DecidableEq

/-- The argument record of a `moveToZAsync` call. -/
structure MoveToZCall where
  z : ℚ
  velocity : ℚ
  timeout_sec : ℚ
  deriving DecidableEq

/-- The argument record of a `landAsync` call. -/
structure LandCall where
  timeout_sec : ℚ
  deriving DecidableEq

/-- The argument record of a `moveByVelocityAsync` call. -/
structure MoveByVelocityCall where
  vx : ℚ
  vy : ℚ
  vz : ℚ
  yaw_mode : YawMode
  duration : ℚ
  deriving DecidableEq

/-- Vendor call `client.reset()`: resets the simulated world (which reverts
control authority and arms state), or raises. A raising call is modelled as
having no effect. -/
def MultirotorClient.reset (c : AirsimClient) : Except RpcError AirsimClient :=
  if c.fail_reset then Except.error RpcError.rpc
  else Except.ok { c with world := c.reset_world, api_control := false, armed := false }

/-- Vendor call `client.enableApiControl(b)`. -/
def MultirotorClient.enableApiControl (c : AirsimClient) (b : Bool) :
    Except RpcError AirsimClient :=
  if c.fail_api then Except.error RpcError.rpc
  else Except.ok { c with api_control := b }

/-- Vendor call `client.armDisarm(req)`: returns the client's success value
and the updated client. -/
def MultirotorClient.armDisarm (c : AirsimClient) (req : Bool) :
    Except RpcError (Bool × AirsimClient) :=
  if c.fail_arm then Except.error RpcError.rpc
  else Except.ok (c.arm_result, { c with armed := req })

/-- Vendor call `client.simPause(b)`. -/
def MultirotorClient.simPause (c : AirsimClient) (b : Bool) :
    Except RpcError AirsimClient :=
  if c.fail_pause then Except.error RpcError.rpc
  else Except.ok { c with paused := b }

/-- Vendor call `client.getMultirotorState()`. -/
def MultirotorClient.getMultirotorState (c : AirsimClient) :
    Except RpcError Snapshot :=
  if c.fail_getstate then Except.error RpcError.rpc
  else Except.ok c.world

/-- Vendor call `client.moveToZAsync(z, velocity, timeout_sec).join()`:
returns the join result and the argument record of the issued call. -/
def MultirotorClient.moveToZAsync (c : AirsimClient) (z velocity timeout_sec : ℚ) :
    Except RpcError (Bool × MoveToZCall) :=
  if c.fail_move then Except.error RpcError.rpc
  else Except.ok (c.move_result, ⟨z, velocity, timeout_sec⟩)

/-- Vendor call `client.landAsync(timeout_sec).join()`. -/
def MultirotorClient.landAsync (c : AirsimClient) (timeout_sec : ℚ) :
    Except RpcError (Bool × LandCall) :=
  if c.fail_land then Except.error RpcError.rpc
  else Except.ok (c.move_result, ⟨timeout_sec⟩)

/-- Vendor call `client.moveByVelocityAsync(vx, vy, vz, yaw_mode, duration).join()`. -/
def MultirotorClient.moveByVelocityAsync (c : AirsimClient) (vx vy vz : ℚ)
    (yaw : YawMode) (duration : ℚ) : Except RpcError MoveByVelocityCall :=
  if c.fail_move then Except.error RpcError.rpc
  else Except.ok ⟨vx, vy, vz, yaw, duration⟩

/-- `AirsimHandler.reset` (lines 54-63): tries `client.reset()`,
`enableApiControl(True)`, `armDisarm(False)` in order inside one
`try/except Exception` that only logs; an exception at any step is
swallowed, keeping the effects of the steps already done. The handler's
own fields (`_new_state`, `_multirotor_state`) are not touched. -/
def AirsimHandler.reset (h : HandlerState) (c : AirsimClient) :
    HandlerState × AirsimClient :=
  match MultirotorClient.reset c with
  | Except.error _ => (h, c)
  | Except.ok c1 =>
    match MultirotorClient.enableApiControl c1 true with
    | Except.error _ => (h, c1)
    | Except.ok c2 =>
      match MultirotorClient.armDisarm c2 false with
      | Except.error _ => (h, c2)
      | Except.ok p => (h, p.2)

/-- `AirsimHandler.pause` (lines 65-72): `simPause(True)` inside a logging
`try/except`. -/
def AirsimHandler.pause (h : HandlerState) (c : AirsimClient) :
    HandlerState × AirsimClient :=
  match MultirotorClient.simPause c true with
  | Except.error _ => (h, c)
  | Except.ok c1 => (h, c1)

/-- `AirsimHandler.unpause` (lines 74-82): `simPause(False)` then
`self._new_state = True`, inside a logging `try/except`; when the call
raises, the staleness flag is not set. -/
def AirsimHandler.unpause (h : HandlerState) (c : AirsimClient) :
    HandlerState × AirsimClient :=
  match MultirotorClient.simPause c false with
  | Except.error _ => (h, c)
  | Except.ok c1 => ({ h with new_state := true }, c1)

/-- `AirsimHandler.client_arm` (lines 84-93):
`return self._client.armDisarm(arm_req)` with no `try/except` — a vendor
exception propagates to the caller. -/
def AirsimHandler.client_arm (c : AirsimClient) (arm_req : Bool) :
    Except RpcError (Bool × AirsimClient) :=
  MultirotorClient.armDisarm c arm_req

/-- `AirsimHandler.client_takeoff` (lines 95-106):
`return self._client.moveToZAsync(z=-takeoff_z, velocity=1.0, timeout_sec=2.0).join()`
with no `try/except`. -/
def AirsimHandler.client_takeoff (c : AirsimClient) (takeoff_z : ℚ) :
    Except RpcError (Bool × MoveToZCall) :=
  MultirotorClient.moveToZAsync c (-takeoff_z) 1 2

/-- `AirsimHandler.client_land` (lines 108-112):
`return self._client.landAsync(timeout_sec=5).join()` with no `try/except`. -/
def AirsimHandler.client_land (c : AirsimClient) :
    Except RpcError (Bool × LandCall) :=
  MultirotorClient.landAsync c 5

/-- `AirsimHandler.client_cmd_vel` (lines 114-140): builds a rate yaw mode
and calls `moveByVelocityAsync(vel_x, vel_y, vel_z, yaw_mode, duration=0.005).join()`
with no `try/except`; returns `None` on success. -/
def AirsimHandler.client_cmd_vel (c : AirsimClient)
    (vel_x vel_y vel_z yaw_rate : ℚ) : Except RpcError Unit :=
  match MultirotorClient.moveByVelocityAsync c vel_x vel_y vel_z
      ⟨true, yaw_rate⟩ (0.005 : ℚ) with
  | Except.error e => Except.error e
  | Except.ok _ => Except.ok ()

/-- The `client_state` property (lines 142-150): when `_new_state` is set,
fetch `getMultirotorState` (which may raise, uncaught), cache it and clear
the flag; otherwise return the cached snapshot untouched. -/
def AirsimHandler.client_state (h : HandlerState) (c : AirsimClient) :
    Except RpcError (Option Snapshot × HandlerState) :=
  if h.new_state then
    match MultirotorClient.getMultirotorState c with
    | Except.error e => Except.error e
    | Except.ok s => Except.ok (some s, ⟨false, some s⟩)
  else
    Except.ok (h.multirotor_state, h)

/-! ## Concrete inputs used by the witnesses and counterexamples -/

/-- Condition never true, shutdown already requested, service accepted. -/
def c1env : ServiceEnv :=
  ⟨fun _ => CondOutcome.value false, fun _ => true, fun _ => 0,
    SrvOutcome.response true⟩

/-- Condition false, service raises. -/
def c4env : ServiceEnv :=
  ⟨fun _ => CondOutcome.value false, fun _ => false, fun _ => 0,
    SrvOutcome.raises⟩

/-- Condition never true, no shutdown, clock frozen before the deadline. -/
def c7env : ServiceEnv :=
  ⟨fun _ => CondOutcome.value false, fun _ => false, fun _ => 0,
    SrvOutcome.response true⟩

/-- Condition already true on entry. -/
def c9env : ServiceEnv :=
  ⟨fun _ => CondOutcome.value true, fun _ => false, fun _ => 0,
    SrvOutcome.response true⟩

/-- An arbitrary flight-mode code. -/
def offboardMode : ℕ := 1

/-- Estimator trace that forever repeats the pre-reset stamp. -/
def c5est : ℕ → EstimatorStatus := fun _ => ⟨7, true, true⟩

/-- Estimator trace whose samples carry stamp 3 — different from, and older
than, a pre-reset stamp of 5 — with both validity flags true. -/
def c8older : ℕ → EstimatorStatus := fun _ => ⟨3, true, true⟩

/-- Estimator trace whose samples carry stamp 9, newer than a pre-reset
stamp of 5, with both validity flags true. -/
def c8newer : ℕ → EstimatorStatus := fun _ => ⟨9, true, true⟩

/-- A healthy client whose world holds snapshot 1 and whose reset produces
snapshot 2. -/
def c2c : AirsimClient :=
  { world := 1, reset_world := 2, api_control := true, armed := false,
    paused := true, arm_result := true, move_result := true,
    fail_reset := false, fail_api := false, fail_arm := false,
    fail_move := false, fail_land := false, fail_pause := false,
    fail_getstate := false }

/-- A handler whose cached snapshot 1 is currently non-stale. -/
def c2h : HandlerState := ⟨false, some 1⟩

/-- A client whose every call raises. -/
def c3c : AirsimClient :=
  { world := 0, reset_world := 0, api_control := false, armed := false,
    paused := false, arm_result := false, move_result := false,
    fail_reset := true, fail_api := true, fail_arm := true,
    fail_move := true, fail_land := true, fail_pause := true,
    fail_getstate := true }

/-- An arbitrary handler state. -/
def c3h : HandlerState := ⟨true, none⟩

/-- A healthy client for the takeoff-call witness. -/
def c10c : AirsimClient :=
  { world := 0, reset_world := 0, api_control := true, armed := false,
    paused := false, arm_result := true, move_result := true,
    fail_reset := false, fail_api := false, fail_arm := false,
    fail_move := false, fail_land := false, fail_pause := false,
    fail_getstate := false }

/-! ## Theorems -/

/-- Claim C9: if the readiness condition already holds on entry,
`_set_service_request` returns `True` immediately: the service is not
invoked and the predicate is evaluated exactly once (the initial check at
line 112 — no polling). -/
theorem C9_already_true_short_circuit (env : ServiceEnv)
    (wait_time timeout : ℚ) (fuel : ℕ)
    (hc : env.cond 0 = CondOutcome.value true) :
    set_service_request env wait_time timeout fuel
      = ⟨some (SvcResult.ret true), 1, false⟩ := by
  unfold set_service_request
  rw [hc]

/-- Claim C9 witness: the short-circuit at a concrete environment. -/
theorem C9_witness :
    set_service_request c9env (1/20) 5 10
      = ⟨some (SvcResult.ret true), 1, false⟩ :=
  C9_already_true_short_circuit c9env (1/20) 5 10 rfl

/-- Claim C4: if the readiness condition is initially false and the service
invocation raises a `rospy.ServiceException` or returns a falsy response,
`_set_service_request` returns `False`, the service having been invoked
once and the predicate evaluated exactly once (the initial check — it is
never polled after the rejection). -/
theorem C4_rejection_no_poll (env : ServiceEnv)
    (wait_time timeout : ℚ) (fuel : ℕ)
    (hc : env.cond 0 = CondOutcome.value false)
    (hr : env.srv = SrvOutcome.raises ∨ env.srv = SrvOutcome.response false) :
    set_service_request env wait_time timeout fuel
      = ⟨some (SvcResult.ret false), 1, true⟩ := by
  unfold set_service_request
  rw [hc]
  rcases hr with h | h <;> rw [h]

/-- Claim C4 witness: a raising service at a concrete environment. -/
theorem C4_witness :
    set_service_request c4env (1/20) 5 10
      = ⟨some (SvcResult.ret false), 1, true⟩ :=
  C4_rejection_no_poll c4env (1/20) 5 10 rfl (Or.inl rfl)

/-- Claim C1 counterexample: with the condition never true, the service
accepted, and shutdown requested at the first loop iteration, the call
returns `True` — a truthy success, not the falsy Cancelled result the
claim states. -/
theorem C1_counterexample :
    set_service_request c1env (1/20) 5 1
        = ⟨some (SvcResult.ret true), 2, true⟩
      ∧ SvcResult.ret true ≠ SvcResult.ret false := by
  exact ⟨rfl, by decide⟩

/-- Claim C1 amended: if at some wait-loop iteration the condition is
(still) false and the shutdown flag is set, the loop exits within that very
iteration — promptly, with one condition evaluation, never blocking — but
it returns `True`, reporting success, not a falsy Cancelled failure. -/
theorem C1_amended_shutdown_exits_true (env : ServiceEnv) (timeout : ℚ)
    (fuel j : ℕ)
    (hc : env.cond (j+1) = CondOutcome.value false)
    (hs : env.shutdown j = true) :
    serviceLoop env timeout (fuel+1) j = (some (SvcResult.ret true), 1) := by
  unfold serviceLoop
  rw [hc]
  simp [hs]

/-- Claim C1 amended witness: the shutdown exit at a concrete
environment. -/
theorem C1_witness :
    serviceLoop c1env 5 1 0 = (some (SvcResult.ret true), 1) :=
  C1_amended_shutdown_exits_true c1env 5 0 0 rfl rfl

/-- Claim C7 counterexample: two calls differing only in `wait_time` (0
versus 100 seconds) produce identical traces — same result, same number of
condition evaluations — so the poll interval does not separate the polls:
the loop polled three times with no wait at all. -/
theorem C7_counterexample :
    set_service_request c7env 0 5 3 = set_service_request c7env 100 5 3
      ∧ set_service_request c7env 0 5 3 = ⟨none, 4, true⟩ :=
  ⟨rfl, rfl⟩

/-- Claim C7 amended: the `wait_time` argument is accepted but never used;
the wait loop busy-polls with no sleep between condition evaluations, and
the whole call behaves identically for every `wait_time`. -/
theorem C7_amended_wait_time_unused (env : ServiceEnv)
    (w1 w2 timeout : ℚ) (fuel : ℕ) :
    set_service_request env w1 timeout fuel
      = set_service_request env w2 timeout fuel := rfl

/-- Claim C6 counterexample: evaluating the set-mode readiness predicate
against a never-populated cached state raises (the `AttributeError` of
`self._state.mode`), rather than yielding false. -/
theorem C6_counterexample :
    modeCond none offboardMode = CondOutcome.raises
      ∧ modeCond none offboardMode ≠ CondOutcome.value false := by
  exact ⟨rfl, by decide⟩

/-- Claim C6 amended: when the cached state field was never populated, the
readiness predicate raises on its very first evaluation (outside the
`try`), so `_set_mode_request` crashes with the exception — the service is
never invoked and the call does not degrade to a timeout. -/
theorem C6_amended_unset_field_crashes (mode : ℕ) (shutdown : ℕ → Bool)
    (elapsed : ℕ → ℚ) (srv : SrvOutcome) (wait_time timeout : ℚ) (fuel : ℕ) :
    set_mode_request none mode shutdown elapsed srv wait_time timeout fuel
      = ⟨some SvcResult.exn, 1, false⟩ := rfl

/-- Claim C5: the `_reset_pose_estimator` wait loop has no timeout and no
cancellation exit: on any trace in which every observed sample either still
carries the pre-reset timestamp or has a validity flag false, the loop
never terminates (it is still spinning at every fuel, from any starting
iteration). -/
theorem C5_est_wait_never_terminates (time_stamp : ℕ)
    (est : ℕ → EstimatorStatus)
    (hno : ∀ n, (est n).stamp = time_stamp
        ∨ (est n).pred_hor_position_rel = false
        ∨ (est n).pred_hor_position_abs = false) :
    ∀ fuel n, reset_pose_estimator_wait time_stamp est fuel n = none := by
  intro fuel
  induction fuel with
  | zero => intro n; rfl
  | succ k ih =>
    intro n
    have hg : estGoodSample time_stamp (est n) = false := by
      unfold estGoodSample
      rcases hno n with h | h | h <;> simp [h]
    unfold reset_pose_estimator_wait
    rw [hg]
    simpa using ih (n+1)

/-- Claim C5 witness: a trace forever repeating the pre-reset stamp keeps
the loop spinning at fuel 50. -/
theorem C5_witness : reset_pose_estimator_wait 7 c5est 50 0 = none :=
  C5_est_wait_never_terminates 7 c5est (fun _ => Or.inl rfl) 50 0

/-- Claim C8 counterexample: with pre-reset stamp 5, a sample whose stamp 3
is different but strictly older — not newer — and whose validity flags are
both true ends the wait immediately, refuting the claim that only a
strictly newer timestamp can end it. -/
theorem C8_counterexample :
    reset_pose_estimator_wait 5 c8older 1 0 = some 0
      ∧ (c8older 0).stamp < 5 := by
  exact ⟨rfl, by decide⟩

/-- Claim C8 amended: the wait ends only upon observing a sample whose
timestamp differs from (not necessarily newer than) the pre-reset timestamp
and whose two validity flags are both true; a sample with the old timestamp
or a false flag never ends the wait. -/
theorem C8_amended_exit_needs_changed_stamp_and_flags (time_stamp : ℕ)
    (est : ℕ → EstimatorStatus) (fuel start m : ℕ)
    (hterm : reset_pose_estimator_wait time_stamp est fuel start = some m) :
    (est m).stamp ≠ time_stamp
      ∧ (est m).pred_hor_position_rel = true
      ∧ (est m).pred_hor_position_abs = true := by
  induction fuel generalizing start with
  | zero => simp [reset_pose_estimator_wait] at hterm
  | succ k ih =>
    unfold reset_pose_estimator_wait at hterm
    by_cases hg : estGoodSample time_stamp (est start) = true
    · rw [hg] at hterm
      simp at hterm
      subst hterm
      unfold estGoodSample at hg
      rcases hbeq : ((est start).stamp == time_stamp) with _ | _
      · rw [hbeq] at hg
        simp at hg
        exact ⟨by simpa using hbeq, hg.1, hg.2⟩
      · rw [hbeq] at hg
        simp at hg
    · rw [Bool.not_eq_true] at hg
      rw [hg] at hterm
      simp at hterm
      exact ih (start+1) hterm

/-- Claim C8 amended witness: a changed-stamp, both-flags-true sample ends
the wait, and then indeed differs in stamp with both flags true. -/
theorem C8_witness :
    (c8newer 0).stamp ≠ 5
      ∧ (c8newer 0).pred_hor_position_rel = true
      ∧ (c8newer 0).pred_hor_position_abs = true :=
  C8_amended_exit_needs_changed_stamp_and_flags 5 c8newer 1 0 0 rfl

/-- Claim C2 counterexample: from a non-stale handler (cached snapshot 1)
and a client whose reset produces snapshot 2, calling `reset` and then
reading `client_state` returns the pre-reset cached snapshot 1 — not the
post-reset client snapshot 2. -/
theorem C2_counterexample :
    AirsimHandler.client_state (AirsimHandler.reset c2h c2c).1
        (AirsimHandler.reset c2h c2c).2
      = Except.ok (c2h.multirotor_state, c2h)
    ∧ c2h.multirotor_state ≠ some ((AirsimHandler.reset c2h c2c).2.world) := by
  exact ⟨rfl, by decide⟩

/-- Claim C2 amended: `reset` never touches the handler's staleness flag
(only `unpause` does), so from any non-stale state, `reset` followed
immediately by `client_state` returns the pre-reset cached snapshot without
consulting the client. -/
theorem C2_amended_reset_keeps_stale_cache (h : HandlerState)
    (c : AirsimClient) (hns : h.new_state = false) :
    AirsimHandler.client_state (AirsimHandler.reset h c).1
        (AirsimHandler.reset h c).2
      = Except.ok (h.multirotor_state, h) := by
  have hfst : (AirsimHandler.reset h c).1 = h := by
    unfold AirsimHandler.reset
    split
    · rfl
    · split
      · rfl
      · split <;> rfl
  rw [hfst]
  simp [AirsimHandler.client_state, hns]

/-- Claim C2 amended witness: the stale-cache read at the concrete
handler/client pair. -/
theorem C2_witness :
    AirsimHandler.client_state (AirsimHandler.reset c2h c2c).1
        (AirsimHandler.reset c2h c2c).2
      = Except.ok (c2h.multirotor_state, c2h) :=
  C2_amended_reset_keeps_stale_cache c2h c2c rfl

/-- Claim C3 counterexample: when the vendor call raises, `client_arm`
lets the exception propagate to the caller instead of catching it and
returning a Rejected result. -/
theorem C3_counterexample :
    AirsimHandler.client_arm c3c true = Except.error RpcError.rpc := rfl

/-- Claim C3 amended: the direct backend swallows vendor exceptions only in
its world-control methods (`reset`, `pause`, `unpause`, and `setup`); the
operation methods `client_arm`, `client_takeoff`, `client_land` and
`client_cmd_vel` have no handler of their own and let the exception
propagate to the caller. -/
theorem C3_amended_only_world_ops_catch (h : HandlerState) (c : AirsimClient)
    (ha : c.fail_arm = true) (hm : c.fail_move = true)
    (hl : c.fail_land = true) (hr : c.fail_reset = true)
    (hp : c.fail_pause = true) :
    AirsimHandler.client_arm c true = Except.error RpcError.rpc
    ∧ AirsimHandler.client_takeoff c 3 = Except.error RpcError.rpc
    ∧ AirsimHandler.client_land c = Except.error RpcError.rpc
    ∧ AirsimHandler.client_cmd_vel c 1 0 0 0 = Except.error RpcError.rpc
    ∧ AirsimHandler.reset h c = (h, c)
    ∧ AirsimHandler.pause h c = (h, c)
    ∧ AirsimHandler.unpause h c = (h, c) := by
  refine ⟨?_, ?_, ?_, ?_, ?_, ?_, ?_⟩ <;>
    simp [AirsimHandler.client_arm, AirsimHandler.client_takeoff,
      AirsimHandler.client_land, AirsimHandler.client_cmd_vel,
      AirsimHandler.reset, AirsimHandler.pause, AirsimHandler.unpause,
      MultirotorClient.armDisarm, MultirotorClient.moveToZAsync,
      MultirotorClient.landAsync, MultirotorClient.moveByVelocityAsync,
      MultirotorClient.reset, MultirotorClient.simPause, ha, hm, hl, hr, hp]

/-- Claim C3 amended witness: the propagation/catch split at the
all-raising client. -/
theorem C3_witness :
    AirsimHandler.client_arm c3c true = Except.error RpcError.rpc
    ∧ AirsimHandler.client_takeoff c3c 3 = Except.error RpcError.rpc
    ∧ AirsimHandler.client_land c3c = Except.error RpcError.rpc
    ∧ AirsimHandler.client_cmd_vel c3c 1 0 0 0 = Except.error RpcError.rpc
    ∧ AirsimHandler.reset c3h c3c = (c3h, c3c)
    ∧ AirsimHandler.pause c3h c3c = (c3h, c3c)
    ∧ AirsimHandler.unpause c3h c3c = (c3h, c3c) :=
  C3_amended_only_world_ops_catch c3h c3c rfl rfl rfl rfl rfl

/-- Claim C10: for every requested altitude, `client_takeoff` issues one
`moveToZAsync` call whose target z is the negation of the requested
altitude (xyz-up to NED-down conversion), with velocity 1.0 and a
2.0-second client-side timeout. -/
theorem C10_takeoff_negated_z (c : AirsimClient) (takeoff_z : ℚ)
    (hm : c.fail_move = false) :
    AirsimHandler.client_takeoff c takeoff_z
      = Except.ok (c.move_result, ⟨-takeoff_z, 1, 2⟩) := by
  simp [AirsimHandler.client_takeoff, MultirotorClient.moveToZAsync, hm]

/-- Claim C10 witness: a takeoff to altitude 3 issues the call with z = -3,
velocity 1, timeout 2. -/
theorem C10_witness :
    AirsimHandler.client_takeoff c10c 3
      = Except.ok (c10c.move_result, ⟨-3, 1, 2⟩) :=
  C10_takeoff_negated_z c10c 3 rfl
